import Mathlib

/-!
Verification of the device session manager of the pokemote repository.

The definitions in this file are a shallow embedding of the TypeScript
sources, chiefly src/tv/client.ts (class LGTVClient), src/index.ts (the
session orchestrator around the Express handlers) and src/tv/database.ts
(class TVDatabase).  JavaScript Map objects are modelled as association
lists keyed by strings, JSON.parse is modelled as an Option-valued decode
supplied to the message handler, promises are modelled as write-once cells
recorded in a promises map (a settle on an already settled promise is a
no-op, as in JavaScript), and setTimeout callbacks are modelled as explicit
state-transition functions that fire the body of the corresponding timer.
Timestamps (ISO-8601 strings in the database, ordered lexicographically,
hence chronologically) are modelled as natural numbers.
-/

namespace Pokemote

/-- Message types of the wire protocol, the type field of TVMessage in
src/tv/client.ts. -/
inductive MsgType where
  | register
  | request
  | subscribe
  | unsubscribe
  | response
  | registered
  | error
  deriving DecidableEq, Repr

/-- Payload of a frame.  The fields inspected by the client code are
returnValue, errorText, pairingType and the client-key entry; all other
payload content is abstracted by the content field. -/
structure Payload where
  returnValue : Option Bool
  errorText : Option String
  pairingType : Option String
  clientKey : Option String
  content : Nat
  deriving DecidableEq, Repr

/-- TVMessage from src/tv/client.ts: a wire frame. -/
structure TVMessage where
  type : MsgType
  id : String
  uri : Option String
  payload : Option Payload
  error : Option String
  deriving DecidableEq, Repr

/-- JavaScript truthiness of an optional string: null, undefined and the
empty string are falsy. -/
def jsTruthy : Option String → Bool
  | none => false
  | some s => decide (s ≠ "")

/-- JavaScript expression a or-else d for an optional string a and a
default d, as in msg.error or-default: the empty string also falls through
to the default. -/
def jsOr (a : Option String) (d : String) : String :=
  match a with
  | none => d
  | some s => if s = "" then d else s

/-- Lookup in an association list keyed by strings, modelling Map.get /
Map.has of a JavaScript Map. -/
def lookupKey {α : Type} : List (String × α) → String → Option α
  | [], _ => none
  | (k, v) :: rest, key => if k = key then some v else lookupKey rest key

/-- Removal of a key, modelling Map.delete. -/
def removeKey {α : Type} (m : List (String × α)) (key : String) :
    List (String × α) :=
  m.filter (fun p => p.1 ≠ key)

/-- Insertion of a key, modelling Map.set (overwrites any previous
binding). -/
def insertKey {α : Type} (m : List (String × α)) (key : String) (v : α) :
    List (String × α) :=
  (key, v) :: removeKey m key

/-- Timeout of LGTVClient.request in milliseconds (src/tv/client.ts line 782). -/
def requestTimeoutMs : Nat := 10000

/-- Timeout of LGTVClient.initiateRegistration in milliseconds
(src/tv/client.ts line 629). -/
def registrationTimeoutMs : Nat := 60000

/-- Timeout of the polling loop of LGTVClient.completePairing in
milliseconds (src/tv/client.ts line 677). -/
def pinEntryTimeoutMs : Nat := 30000

/-- Kind of closure stored in the pendingRequests map of LGTVClient: the
handler installed by request (src/tv/client.ts lines 767-777) or the
checkResponse handler installed by initiateRegistration (lines 607-626).
registerWithStoredKey installs a similar handler, not needed by the
claims about the client proper. -/
inductive Handler where
  | requestHandler
  | registrationHandler
  deriving DecidableEq, Repr

/-- Settled result of a promise created by a client operation. -/
inductive Outcome where
  | resolved (payload : Option Payload)
  | requestFailed (msg : String)
  | commandFailed (msg : String)
  | requestTimeout
  | initiatedPIN
  | registrationError (msg : String)
  | registrationTimeout
  deriving DecidableEq, Repr

/-- State of one LGTVClient (src/tv/client.ts lines 503-510).  The ws
field is none when the socket is absent and some b when present, b being
true exactly when readyState is OPEN.  The promises map records, per
originating message id, the settled result of the promise returned by the
operation that sent that id; an id absent from the map is an unsettled
promise. -/
structure ClientState where
  ws : Option Bool
  pendingRequests : List (String × Handler)
  subscriptions : List (String × Nat)
  clientKey : Option String
  pointerSocket : Option Bool
  pointerSocketPath : Option String
  pendingRegistrationId : Option String
  promises : List (String × Outcome)
  deriving DecidableEq, Repr

/-- Settling a promise: JavaScript promises settle at most once, a second
resolve or reject is a no-op. -/
def settlePromise (id : String) (o : Outcome) (s : ClientState) : ClientState :=
  match lookupKey s.promises id with
  | some _ => s
  | none => { s with promises := insertKey s.promises id o }

/-- Resolution of the promise of one request by a matching inbound frame:
the handler that LGTVClient.request installs in pendingRequests
(src/tv/client.ts lines 767-777).  An error frame rejects with the frame
error text, a payload carrying returnValue strictly equal to false rejects
with its errorText, any other frame resolves with the frame payload. -/
def requestResolution (response : TVMessage) : Outcome :=
  if response.type = MsgType.error then
    Outcome.requestFailed (jsOr response.error "Request failed")
  else if response.payload.bind Payload.returnValue = some false then
    Outcome.commandFailed (jsOr (response.payload.bind Payload.errorText) "Command failed")
  else
    Outcome.resolved response.payload

/-- Effect of a Request call issuing the fresh correlation id on a
connected session (src/tv/client.ts lines 756-789): the in-flight entry is
registered under the id and the frame is sent; the returned promise is
tracked in promises under the same id. -/
def requestCall (id : String) (s : ClientState) : ClientState :=
  { s with pendingRequests := insertKey s.pendingRequests id Handler.requestHandler }

/-- Body of the 10 second setTimeout of LGTVClient.request when it fires
(src/tv/client.ts lines 782-787): if the entry is still pending it is
removed and the promise rejected with the timeout error. -/
def requestTimeoutFire (id : String) (s : ClientState) : ClientState :=
  if (lookupKey s.pendingRequests id).isSome then
    settlePromise id Outcome.requestTimeout
      { s with pendingRequests := removeKey s.pendingRequests id }
  else s

/-- Effect of a subscribe call (src/tv/client.ts lines 834-848): the
callback, abstracted by a numeric tag, is registered under the fresh id
and the subscribe frame is sent. -/
def subscribeCall (id : String) (cb : Nat) (s : ClientState) : ClientState :=
  { s with subscriptions := insertKey s.subscriptions id cb }

/-- LGTVClient.unsubscribe (src/tv/client.ts lines 853-863): the handle is
deleted from the subscriptions map, then the unsubscribe frame is sent
through send, which throws the Not connected error when the socket is
absent or not OPEN (lines 944-951).  The second component is the raised
exception, if any; the deletion has already happened in either case. -/
def unsubscribeCall (id : String) (s : ClientState) : ClientState × Option String :=
  let s1 := { s with subscriptions := removeKey s.subscriptions id }
  match s1.ws with
  | some true => (s1, none)
  | _ => (s1, some "Not connected")

/-- Effect of LGTVClient.initiateRegistration on the client state
(src/tv/client.ts lines 589-637): records the pending registration id and
installs the checkResponse handler under it, then sends the register
frame. -/
def initiateRegistrationCall (regId : String) (s : ClientState) : ClientState :=
  { s with pendingRegistrationId := some regId,
           pendingRequests := insertKey s.pendingRequests regId Handler.registrationHandler }

/-- The checkResponse handler installed by initiateRegistration
(src/tv/client.ts lines 607-624).  A response frame with pairingType PIN
resolves the initiation promise with requiresPIN true and keeps the
handler active; a response with pairingType PROMPT only logs; a
registered frame stores the client key from the payload and clears the
entry and the pending registration id without settling the promise; an
error frame clears both and rejects. -/
def registrationStep (regId : String) (msg : TVMessage) (s : ClientState) : ClientState :=
  if msg.type = MsgType.response ∧ msg.payload.bind Payload.pairingType = some "PIN" then
    settlePromise regId Outcome.initiatedPIN s
  else if msg.type = MsgType.response ∧ msg.payload.bind Payload.pairingType = some "PROMPT" then
    s
  else if msg.type = MsgType.registered then
    { s with clientKey := msg.payload.bind Payload.clientKey,
             pendingRequests := removeKey s.pendingRequests regId,
             pendingRegistrationId := none }
  else if msg.type = MsgType.error then
    settlePromise regId (Outcome.registrationError (jsOr msg.error "Registration failed"))
      { s with pendingRequests := removeKey s.pendingRequests regId,
               pendingRegistrationId := none }
  else s

/-- Body of the 60 second setTimeout of initiateRegistration when it fires
(src/tv/client.ts lines 629-635): only when the registration entry is
still pending and the client holds no truthy client key does it remove the
entry, clear the pending registration id and reject with the Registration
timeout error (a no-op on the promise when it already resolved). -/
def registrationTimeoutFire (regId : String) (s : ClientState) : ClientState :=
  if (lookupKey s.pendingRequests regId).isSome ∧ jsTruthy s.clientKey = false then
    settlePromise regId Outcome.registrationTimeout
      { s with pendingRequests := removeKey s.pendingRequests regId,
               pendingRegistrationId := none }
  else s

/-- The synchronous guard of LGTVClient.completePairing (src/tv/client.ts
lines 646-649): throws when there is no socket, or when no registration is
pending. -/
def completePairingCheck (s : ClientState) : Except String Unit :=
  if s.ws = none then Except.error "Not connected"
  else if jsTruthy s.pendingRegistrationId = false then
    Except.error "No pending registration. Call initiateRegistration() first."
  else Except.ok ()

/-- LGTVClient.disconnect (src/tv/client.ts lines 929-939): closes and
nulls the pointer socket and the primary socket.  The pendingRequests and
subscriptions maps are not touched. -/
def disconnect (s : ClientState) : ClientState :=
  { s with pointerSocket := none, pointerSocketPath := none, ws := none }

/-- How the single inbound message handler dispatched a frame. -/
inductive Dispatch where
  | toPending (id : String)
  | toSub (id : String)
  | dropped
  | parseFailed
  deriving DecidableEq, Repr

/-- Invocation of the handler found in pendingRequests for a frame. -/
def applyHandler (h : Handler) (id : String) (msg : TVMessage) (s : ClientState) : ClientState :=
  match h with
  | Handler.requestHandler =>
      settlePromise id (requestResolution msg)
        { s with pendingRequests := removeKey s.pendingRequests id }
  | Handler.registrationHandler => registrationStep id msg s

/-- LGTVClient.handleMessage (src/tv/client.ts lines 956-980).  JSON.parse
is modelled by the Option-valued argument, none standing for input that is
not valid JSON; the surrounding try/catch makes the handler total, so the
model returns a state rather than an exception.  A frame with a falsy id
skips both map checks.  The pendingRequests map is consulted first, then
the subscriptions map, else the frame is logged and dropped. -/
def handleMessage (parsed : Option TVMessage) (s : ClientState) : ClientState × Dispatch :=
  match parsed with
  | none => (s, Dispatch.parseFailed)
  | some m =>
    if m.id = "" then (s, Dispatch.dropped)
    else
      match lookupKey s.pendingRequests m.id with
      | some h => (applyHandler h m.id m s, Dispatch.toPending m.id)
      | none =>
        match lookupKey s.subscriptions m.id with
        | some _ => (s, Dispatch.toSub m.id)
        | none => (s, Dispatch.dropped)

/-- Events of one connected session: a Request call issuing a fresh id, a
subscribe call, an unsubscribe call, an inbound frame, and the firing of
the 10 second timer of a request. -/
inductive Event where
  | req (id : String)
  | sub (id : String) (cb : Nat)
  | unsub (id : String)
  | frame (m : TVMessage)
  | reqTimeout (id : String)
  deriving DecidableEq, Repr

/-- State transition of one event. -/
def stepState (s : ClientState) : Event → ClientState
  | Event.req id => requestCall id s
  | Event.sub id cb => subscribeCall id cb s
  | Event.unsub id => (unsubscribeCall id s).1
  | Event.frame m => (handleMessage (some m) s).1
  | Event.reqTimeout id => requestTimeoutFire id s

/-- Subscription callback invocations emitted by one event: the inbound
handler calls the subscription callback with the frame payload exactly
when the frame dispatches to the subscriptions map. -/
def stepLog (s : ClientState) : Event → List (String × Option Payload)
  | Event.frame m =>
      match (handleMessage (some m) s).2 with
      | Dispatch.toSub i => [(i, m.payload)]
      | _ => []
  | _ => []

/-- Final state after a list of events. -/
def runState (s : ClientState) : List Event → ClientState
  | [] => s
  | e :: es => runState (stepState s e) es

/-- Concatenated subscription callback invocations over a list of events. -/
def runLog (s : ClientState) : List Event → List (String × Option Payload)
  | [] => []
  | e :: es => stepLog s e ++ runLog (stepState s e) es

/-- An event that settles the promise of the request with the given id:
an inbound frame carrying that correlation id, or the firing of the
10 second timer of that request. -/
def settlingEvent (id : String) : Event → Bool
  | Event.frame m => decide (m.id = id)
  | Event.reqTimeout i => decide (i = id)
  | _ => false

/-- The outcome a settling event produces for the request it settles. -/
def settleOutcome : Event → Outcome
  | Event.frame m => requestResolution m
  | _ => Outcome.requestTimeout

/-- Concrete payload used by witness states. -/
def wPayload : Payload :=
  { returnValue := some true, errorText := none, pairingType := none,
    clientKey := none, content := 7 }

/-- Concrete response frame for the request with id req-a. -/
def wFrame : TVMessage :=
  { type := MsgType.response, id := "req-a", uri := none,
    payload := some wPayload, error := none }

/-- Concrete connected client with one in-flight request req-a. -/
def wClient : ClientState :=
  { ws := some true, pendingRequests := [("req-a", Handler.requestHandler)],
    subscriptions := [], clientKey := none, pointerSocket := none,
    pointerSocketPath := none, pendingRegistrationId := none, promises := [] }

/-- Concrete client with the id both-1 present in both maps. -/
def wBothClient : ClientState :=
  { ws := some true, pendingRequests := [("both-1", Handler.requestHandler)],
    subscriptions := [("both-1", 4)], clientKey := none, pointerSocket := none,
    pointerSocketPath := none, pendingRegistrationId := none, promises := [] }

/-- Concrete frame whose id is in both maps of wBothClient. -/
def wBothFrame : TVMessage :=
  { type := MsgType.response, id := "both-1", uri := none,
    payload := some wPayload, error := none }

/-- Concrete frame unknown to wClient. -/
def wUnknownFrame : TVMessage :=
  { type := MsgType.response, id := "mystery-9", uri := none,
    payload := none, error := none }

/-- Concrete client state holding one in-flight request, one subscription
and both sockets, used to refute claim C6. -/
def c6State : ClientState :=
  { ws := some true, pendingRequests := [("req-1", Handler.requestHandler)],
    subscriptions := [("sub-1", 0)], clientKey := some "key-1",
    pointerSocket := some true, pointerSocketPath := some "path-1",
    pendingRegistrationId := none, promises := [] }

/-- Concrete client whose socket is gone while a subscription sub-1 is
still registered, used to refute claim C7. -/
def c7State : ClientState :=
  { ws := none, pendingRequests := [], subscriptions := [("sub-1", 5)],
    clientKey := some "key-1", pointerSocket := none, pointerSocketPath := none,
    pendingRegistrationId := none, promises := [] }

/-- Concrete subscribed client used by the C7 witness. -/
def wSubClient : ClientState :=
  { ws := some true, pendingRequests := [], subscriptions := [("sub-9", 3)],
    clientKey := none, pointerSocket := none, pointerSocketPath := none,
    pendingRegistrationId := none, promises := [] }

/-- Concrete push frame for subscription sub-9. -/
def wSubFrame : TVMessage :=
  { type := MsgType.response, id := "sub-9", uri := none,
    payload := some wPayload, error := none }

/-- Concrete connected client that already holds a stored client key, the
silent-reconnect scenario in which the connect handler passes the stored
key to the new LGTVClient. -/
def c8Start : ClientState :=
  { ws := some true, pendingRequests := [], subscriptions := [],
    clientKey := some "stored-key", pointerSocket := none,
    pointerSocketPath := none, pendingRegistrationId := none, promises := [] }

/-- Response frame by which the device requests a displayed PIN for the
registration with id reg-1. -/
def c8PinFrame : TVMessage :=
  { type := MsgType.response, id := "reg-1", uri := none,
    payload := some { returnValue := none, errorText := none,
                      pairingType := some "PIN", clientKey := none, content := 0 },
    error := none }

/-- The client state after initiating registration reg-1 and receiving the
PIN-request response: the AwaitingPIN state of claim C8. -/
def c8AwaitPIN : ClientState :=
  (handleMessage (some c8PinFrame) (initiateRegistrationCall "reg-1" c8Start)).1

/-- Concrete AwaitingPIN client with no stored key, used by the C8
witness. -/
def c8NoKey : ClientState :=
  { ws := some true, pendingRequests := [("reg-1", Handler.registrationHandler)],
    subscriptions := [], clientKey := none, pointerSocket := none,
    pointerSocketPath := none, pendingRegistrationId := some "reg-1",
    promises := [("reg-1", Outcome.initiatedPIN)] }

/-- TVCredential of src/tv/database.ts: one row of the tv_credentials
table.  The ISO-8601 timestamp strings, whose lexicographic order is the
chronological order, are modelled as naturals. -/
structure TVCredential where
  ip : String
  clientKey : String
  secure : Bool
  name : Option String
  createdAt : Nat
  lastUsed : Nat
  isValid : Bool
  deriving DecidableEq, Repr

/-- SELECT ... WHERE ip = ? : the row with the address, ip being the
primary key. -/
def getCredentialsRow : List TVCredential → String → Option TVCredential
  | [], _ => none
  | c :: rest, ip => if c.ip = ip then some c else getCredentialsRow rest ip

/-- TVDatabase.updateLastUsed (src/tv/database.ts lines 159-167): UPDATE
tv_credentials SET last_used = now WHERE ip = ?. -/
def updateLastUsed (db : List TVCredential) (ip : String) (now : Nat) :
    List TVCredential :=
  db.map (fun c => if c.ip = ip then { c with lastUsed := now } else c)

/-- TVDatabase.getCredentials (src/tv/database.ts lines 81-104): reads the
row and, when it exists, also updates its last_used column to the current
time, returning the values read before that update. -/
def getCredentials (db : List TVCredential) (ip : String) (now : Nat) :
    Option TVCredential × List TVCredential :=
  match getCredentialsRow db ip with
  | none => (none, db)
  | some row => (some row, updateLastUsed db ip now)

/-- TVDatabase.saveCredentials (src/tv/database.ts lines 60-76): INSERT
with ON CONFLICT(ip) upsert, storing the key and mode, refreshing
last_used, resetting is_valid to 1 and keeping the old name when the new
one is null (COALESCE). -/
def saveCredentials (db : List TVCredential) (ip ck : String)
    (secure : Bool) (name : Option String) (now : Nat) : List TVCredential :=
  match getCredentialsRow db ip with
  | some _ =>
      db.map (fun c => if c.ip = ip then
        { c with clientKey := ck, secure := secure, lastUsed := now,
                 isValid := true,
                 name := match name with | some n => some n | none => c.name }
        else c)
  | none =>
      db ++ [{ ip := ip, clientKey := ck, secure := secure, name := name,
               createdAt := now, lastUsed := now, isValid := true }]

/-- TVDatabase.invalidateCredentials (src/tv/database.ts lines 132-141):
UPDATE tv_credentials SET is_valid = 0 WHERE ip = ?; the row itself is
kept. -/
def invalidateCredentials (db : List TVCredential) (ip : String) :
    List TVCredential :=
  db.map (fun c => if c.ip = ip then { c with isValid := false } else c)

/-- Choice of the more recently used of the rows seen so far, keeping the
earlier row on ties (the SQL ordering leaves ties unspecified). -/
def pickMoreRecent (acc : Option TVCredential) (c : TVCredential) :
    Option TVCredential :=
  match acc with
  | none => some c
  | some b => if b.lastUsed < c.lastUsed then some c else some b

/-- TVDatabase.getMostRecentTV (src/tv/database.ts lines 172-194):
SELECT ... WHERE is_valid = 1 ORDER BY last_used DESC LIMIT 1, with no
side effect on the store. -/
def getMostRecentTV (db : List TVCredential) : Option TVCredential :=
  (db.filter (fun c => c.isValid)).foldl pickMoreRecent none

/-- Concrete stored credential row used by the C9 witness. -/
def wCred : TVCredential :=
  { ip := "10.0.0.5", clientKey := "key-5", secure := true, name := none,
    createdAt := 1, lastUsed := 2, isValid := true }

/-- Substring check, modelling String.prototype.includes of JavaScript
(case sensitive). -/
def strContains (hay needle : String) : Bool :=
  decide (needle.data <:+: hay.data)

/-- The credential-invalidation condition of autoReconnect (src/index.ts
line 72): the caught error message must contain the substring 401 or the
all-lowercase substring authentication. -/
def isAuthFailureMessage (msg : String) : Bool :=
  strContains msg "401" || strContains msg "authentication"

/-- Cause of a failed connect plus registerWithStoredKey sequence inside
autoReconnect, carrying the data that determines the error message. -/
inductive ReconnectError where
  | connectTimeout
  | connectFailed (socketMsg : String)
  | authErrorFrame (err : Option String)
  | authTimeout
  deriving DecidableEq, Repr

/-- The message of the error that autoReconnect catches, by source of the
rejection: connect rejects with the fixed timeout text (src/tv/client.ts
line 547) or the socket error text prefixed with the url (line 562);
registerWithStoredKey rejects with the error-frame text defaulted to
Authentication failed (line 714) or with the fixed Authentication timeout
text (line 724). -/
def reconnectErrMessage (ip : String) (secure : Bool) : ReconnectError → String
  | ReconnectError.connectTimeout => "Connection timeout after 10 seconds"
  | ReconnectError.connectFailed m =>
      "Failed to connect to " ++ (if secure then "wss" else "ws") ++ "://" ++
        ip ++ ":" ++ (if secure then "3001" else "3000") ++ "/: " ++ m
  | ReconnectError.authErrorFrame e => jsOr e "Authentication failed"
  | ReconnectError.authTimeout => "Authentication timeout"

/-- Outcome of the connect and silent re-authentication attempt of
autoReconnect, supplied by the environment (the device and network). -/
inductive AttemptOutcome where
  | ok
  | fails (e : ReconnectError)
  deriving DecidableEq, Repr

/-- autoReconnect from src/index.ts lines 44-79, as the pair of the
returned success flag and the credential store after the call.
getCredentials updates the last_used column as a side effect even on the
failure paths, and invalidateCredentials runs exactly when the caught
error message passes isAuthFailureMessage. -/
def autoReconnect (db : List TVCredential) (ip : String) (now : Nat)
    (attempt : AttemptOutcome) : Bool × List TVCredential :=
  match getCredentials db ip now with
  | (none, db1) => (false, db1)
  | (some c, db1) =>
    if c.isValid = false then (false, db1)
    else
      match attempt with
      | AttemptOutcome.ok => (true, db1)
      | AttemptOutcome.fails e =>
        if isAuthFailureMessage (reconnectErrMessage ip c.secure e) then
          (false, invalidateCredentials db1 ip)
        else (false, db1)

/-- ensureConnection from src/index.ts lines 84-96: a live session is a
no-op success; otherwise the most recently used valid record is consulted
and, when none exists, the call fails without touching the store. -/
def ensureConnection (connected : Bool) (db : List TVCredential) (now : Nat)
    (attempt : AttemptOutcome) : Bool × List TVCredential :=
  if connected then (true, db)
  else
    match getMostRecentTV db with
    | none => (false, db)
    | some recent => autoReconnect db recent.ip now attempt

/-- Concrete valid stored credential rejected by the device in the C3
failing run. -/
def c3Cred : TVCredential :=
  { ip := "10.0.0.5", clientKey := "stale-key", secure := true, name := none,
    createdAt := 1, lastUsed := 2, isValid := true }

/-- Server-side state of src/index.ts: the module-level tvClient,
tvCommands and currentTVIP variables (the client and commands objects
abstracted to presence flags), the pendingPairings map, which stores per
address the paired client and the secure flag chosen for it (the client
handle abstracted away), and the credential store. -/
structure ServerState where
  db : List TVCredential
  hasClient : Bool
  hasCommands : Bool
  currentTVIP : Option String
  pendingPairings : List (String × Bool)
  deriving DecidableEq, Repr

/-- Outcome of the for-loop over candidate transport modes in the connect
handler (src/index.ts lines 237-257). -/
inductive ConnectOutcome where
  | connected (mode : Bool)
  | failedExplicit (mode : Bool)
  | failedBoth
  deriving DecidableEq, Repr

/-- Candidate modes (src/index.ts line 237): the explicit mode alone when
the caller pinned one, else secure first then insecure. -/
def connectModes : Option Bool → List Bool
  | some b => [b]
  | none => [true, false]

/-- The connection loop (src/index.ts lines 239-257): the first successful
mode wins and the loop stops; a failure with an explicitly pinned mode
rethrows the error at once; with no pinned mode the loop moves on, and
only when every candidate failed does control fall through to the
combined error of lines 259-261. -/
def connectLoop (explicitMode : Bool) (ok : Bool → Bool) :
    List Bool → ConnectOutcome
  | [] => ConnectOutcome.failedBoth
  | m :: rest =>
    if ok m then ConnectOutcome.connected m
    else if explicitMode then ConnectOutcome.failedExplicit m
    else connectLoop explicitMode ok rest

/-- The modes the loop actually attempts, in order. -/
def connectAttempts (explicitMode : Bool) (ok : Bool → Bool) :
    List Bool → List Bool
  | [] => []
  | m :: rest =>
    if ok m then [m]
    else if explicitMode then [m]
    else m :: connectAttempts explicitMode ok rest

/-- The connection stage of the connect handler: loop outcome plus the
list of attempted modes. -/
def tryConnect (secure : Option Bool) (ok : Bool → Bool) :
    ConnectOutcome × List Bool :=
  (connectLoop secure.isSome ok (connectModes secure),
   connectAttempts secure.isSome ok (connectModes secure))

/-- Settled result of the initiateRegistration promise awaited by the
connect handler: the PIN prompt resolution, or a rejection (an error
frame or the 60 second registration timeout).  The non-PIN fallback of
src/index.ts lines 283-297 is unreachable, because the initiation promise
settles in no other way, and is therefore not modelled. -/
inductive RegOutcome where
  | requiresPIN
  | regFail (msg : String)
  deriving DecidableEq, Repr

/-- Responses of the connect handler. -/
inductive ConnectResp where
  | badRequest (msg : String)
  | alreadyConnected
  | pinDisplayed (ip : String) (secure : Bool)
  | serverError (msg : String)
  deriving DecidableEq, Repr

/-- The combined error thrown when every candidate mode failed
(src/index.ts line 260); the last error is the one of the last attempted
mode. -/
def bothFailMessage (lastErr : String) : String :=
  "Failed to connect to TV. Tried both secure and non-secure modes. Last error: "
    ++ lastErr

/-- The connect handler, POST /api/connect (src/index.ts lines 202-306):
rejects a missing ip; short-circuits when already connected to the same
address and not forced; otherwise tears down any existing session, reads
stored credentials (with the last_used side effect of getCredentials),
runs the connection loop, and on a successful connection awaits the PIN
registration: a PIN prompt records the pending pairing with the winning
mode, keeps the client installed and answers with the pairing-in-progress
response; any thrown error is caught, the session variables are nulled and
a server error is returned.  The third component is the list of attempted
modes. -/
def connectHandler (ip : String) (secure : Option Bool) (force : Bool)
    (ok : Bool → Bool) (connErr : Bool → String) (reg : RegOutcome) (now : Nat)
    (st : ServerState) : ServerState × ConnectResp × List Bool :=
  if ip = "" then (st, ConnectResp.badRequest "IP address required", [])
  else if st.hasClient = true ∧ st.currentTVIP = some ip ∧ force = false then
    (st, ConnectResp.alreadyConnected, [])
  else
    let st1 : ServerState := { st with hasClient := false, hasCommands := false }
    let st2 : ServerState := { st1 with db := (getCredentials st1.db ip now).2 }
    match tryConnect secure ok with
    | (ConnectOutcome.connected m, attempts) =>
      match reg with
      | RegOutcome.requiresPIN =>
        ({ st2 with hasClient := true,
                    pendingPairings := insertKey st2.pendingPairings ip m,
                    currentTVIP := some ip },
         ConnectResp.pinDisplayed ip m, attempts)
      | RegOutcome.regFail msg =>
        ({ st2 with hasClient := false, hasCommands := false,
                    currentTVIP := none },
         ConnectResp.serverError msg, attempts)
    | (ConnectOutcome.failedExplicit m, attempts) =>
      ({ st2 with hasClient := false, hasCommands := false,
                  currentTVIP := none },
       ConnectResp.serverError (connErr m), attempts)
    | (ConnectOutcome.failedBoth, attempts) =>
      ({ st2 with hasClient := false, hasCommands := false,
                  currentTVIP := none },
       ConnectResp.serverError (bothFailMessage (connErr false)), attempts)

/-- Result of completePairing as observed by the pair handler: the device
accepted the PIN and issued a key, or the promise rejected with a
message (Pairing failed or PIN entry timeout). -/
inductive PinResult where
  | accepted (key : String)
  | rejected (msg : String)
  deriving DecidableEq, Repr

/-- Responses of the pair handler. -/
inductive PairResp where
  | badRequest (msg : String)
  | noPending (ip : String)
  | paired (ip : String) (key : String)
  | serverError (msg : String)
  deriving DecidableEq, Repr

/-- JavaScript a-or-b on optional strings, as in ip or currentTVIP. -/
def jsOrOpt (a b : Option String) : Option String :=
  if jsTruthy a then a else b

/-- The pair handler, POST /api/pair (src/index.ts lines 308-355): rejects
a missing pin; resolves the target address as the explicit ip argument
falling back to currentTVIP; fails when no pending pairing exists for that
address, leaving all state unchanged; otherwise completes the pairing: on
an accepted PIN it performs the single saveCredentials upsert with the
pending secure mode, installs the paired client as the current session,
and deletes the pending entry; on a rejected PIN the catch block returns
the error with no state change. -/
def pairHandler (pin : String) (ipArg : Option String) (pinRes : PinResult)
    (now : Nat) (st : ServerState) : ServerState × PairResp :=
  if pin = "" then (st, PairResp.badRequest "PIN is required")
  else
    match jsOrOpt ipArg st.currentTVIP with
    | none =>
        (st, PairResp.badRequest "No active pairing session. Call /api/connect first.")
    | some tip =>
      if tip = "" then
        (st, PairResp.badRequest "No active pairing session. Call /api/connect first.")
      else
        match lookupKey st.pendingPairings tip with
        | none => (st, PairResp.noPending tip)
        | some sec =>
          match pinRes with
          | PinResult.accepted key =>
            ({ st with db := saveCredentials st.db tip key sec none now,
                       hasClient := true, hasCommands := true,
                       currentTVIP := some tip,
                       pendingPairings := removeKey st.pendingPairings tip },
             PairResp.paired tip key)
          | PinResult.rejected msg => (st, PairResp.serverError msg)

/-- Concrete server state with one pending pairing for 10.0.0.5 in
insecure mode. -/
def wServer : ServerState :=
  { db := [], hasClient := true, hasCommands := false,
    currentTVIP := some "10.0.0.5", pendingPairings := [("10.0.0.5", false)] }

/-- Environment in which the secure mode fails and the insecure mode
succeeds, for the C4 witness. -/
def c4ok : Bool → Bool := fun b => !b

/-- Fresh server state for the C4 witness. -/
def c4Server : ServerState :=
  { db := [], hasClient := false, hasCommands := false,
    currentTVIP := none, pendingPairings := [] }

theorem lookupKey_removeKey_self {α : Type} (m : List (String × α))
    (key : String) : lookupKey (removeKey m key) key = none := by
  induction m with
  | nil => rfl
  | cons p rest ih =>
    by_cases h : p.1 = key
    · simpa [removeKey, List.filter_cons, h] using ih
    · simpa [removeKey, List.filter_cons, h, lookupKey] using ih

theorem lookupKey_removeKey_ne {α : Type} (m : List (String × α))
    {key key' : String} (h : key' ≠ key) :
    lookupKey (removeKey m key) key' = lookupKey m key' := by
  have hk : ¬ key = key' := fun hc => h hc.symm
  induction m with
  | nil => rfl
  | cons p rest ih =>
    by_cases hp : p.1 = key
    · have hp' : ¬ p.1 = key' := fun hc => h (hc ▸ hp)
      simpa [removeKey, List.filter_cons, hp, lookupKey, hp', hk, h] using ih
    · by_cases hq : p.1 = key'
      · simp [removeKey, List.filter_cons, hp, lookupKey, hq, hk, h]
      · simpa [removeKey, List.filter_cons, hp, lookupKey, hq, hk, h] using ih

theorem lookupKey_insertKey_self {α : Type} (m : List (String × α))
    (key : String) (v : α) : lookupKey (insertKey m key v) key = some v := by
  simp [insertKey, lookupKey]

theorem lookupKey_insertKey_ne {α : Type} (m : List (String × α))
    {key key' : String} (v : α) (h : key' ≠ key) :
    lookupKey (insertKey m key v) key' = lookupKey m key' := by
  have hk : ¬ key = key' := fun hc => h hc.symm
  simp only [insertKey, lookupKey, if_neg hk]
  exact lookupKey_removeKey_ne m h

theorem settlePromise_pendingRequests (i : String) (o : Outcome) (s : ClientState) :
    (settlePromise i o s).pendingRequests = s.pendingRequests := by
  unfold settlePromise
  split <;> rfl

theorem settlePromise_subscriptions (i : String) (o : Outcome) (s : ClientState) :
    (settlePromise i o s).subscriptions = s.subscriptions := by
  unfold settlePromise
  split <;> rfl

theorem settlePromise_mono {s : ClientState} {id : String} {o : Outcome}
    (i : String) (o' : Outcome) (h : lookupKey s.promises id = some o) :
    lookupKey (settlePromise i o' s).promises id = some o := by
  unfold settlePromise
  split
  · exact h
  · rename_i hnone
    by_cases hii : id = i
    · rw [hii] at h
      rw [h] at hnone
      cases hnone
    · simpa [lookupKey_insertKey_ne _ _ hii] using h

theorem settlePromise_self_none {s : ClientState} {i : String} (o : Outcome)
    (h : lookupKey s.promises i = none) :
    lookupKey (settlePromise i o s).promises i = some o := by
  unfold settlePromise
  rw [h]
  exact lookupKey_insertKey_self _ _ _

theorem settlePromise_lookup_ne {s : ClientState} {id i : String} (o : Outcome)
    (h : id ≠ i) :
    lookupKey (settlePromise i o s).promises id = lookupKey s.promises id := by
  unfold settlePromise
  split
  · rfl
  · exact lookupKey_insertKey_ne _ _ h

theorem registrationStep_promises_mono (regId : String) (m : TVMessage)
    {s : ClientState} {id : String} {o : Outcome}
    (h : lookupKey s.promises id = some o) :
    lookupKey (registrationStep regId m s).promises id = some o := by
  unfold registrationStep
  split_ifs
  · exact settlePromise_mono _ _ h
  · exact h
  · exact h
  · exact settlePromise_mono _ _ h
  · exact h

theorem handleMessage_promises_mono (m : TVMessage) {s : ClientState}
    {id : String} {o : Outcome} (h : lookupKey s.promises id = some o) :
    lookupKey (handleMessage (some m) s).1.promises id = some o := by
  unfold handleMessage
  by_cases hid : m.id = ""
  · simpa [hid] using h
  · simp only [hid, if_false]
    cases hp : lookupKey s.pendingRequests m.id with
    | some hdl =>
      cases hdl with
      | requestHandler =>
        simpa [applyHandler] using settlePromise_mono (s := { s with
          pendingRequests := removeKey s.pendingRequests m.id }) _ _ h
      | registrationHandler =>
        simpa [applyHandler] using registrationStep_promises_mono m.id m h
    | none =>
      cases hs : lookupKey s.subscriptions m.id <;> simpa [hp, hs] using h

theorem unsubscribeCall_fst (i : String) (s : ClientState) :
    (unsubscribeCall i s).1 = { s with subscriptions := removeKey s.subscriptions i } := by
  cases hw : s.ws with
  | none => simp [unsubscribeCall, hw]
  | some b => cases b <;> simp [unsubscribeCall, hw]

theorem stepState_promises_mono (s : ClientState) (e : Event) {id : String}
    {o : Outcome} (h : lookupKey s.promises id = some o) :
    lookupKey (stepState s e).promises id = some o := by
  cases e with
  | req i => simpa [stepState, requestCall] using h
  | sub i cb => simpa [stepState, subscribeCall] using h
  | unsub i => simpa [stepState, unsubscribeCall_fst] using h
  | frame m => exact handleMessage_promises_mono m h
  | reqTimeout i =>
    simp only [stepState, requestTimeoutFire]
    split
    · exact settlePromise_mono (s := { s with
        pendingRequests := removeKey s.pendingRequests i }) _ _ h
    · exact h

theorem runState_promises_mono (s : ClientState) (es : List Event) {id : String}
    {o : Outcome} (h : lookupKey s.promises id = some o) :
    lookupKey (runState s es).promises id = some o := by
  induction es generalizing s with
  | nil => exact h
  | cons e es ih => exact ih _ (stepState_promises_mono s e h)

theorem registrationStep_pending_none (regId : String) (m : TVMessage)
    {s : ClientState} {id : String}
    (h : lookupKey s.pendingRequests id = none) :
    lookupKey (registrationStep regId m s).pendingRequests id = none := by
  unfold registrationStep
  split_ifs
  · simpa [settlePromise_pendingRequests] using h
  · exact h
  · by_cases hir : id = regId
    · simpa [hir] using lookupKey_removeKey_self s.pendingRequests regId
    · simpa [lookupKey_removeKey_ne _ hir] using h
  · rw [settlePromise_pendingRequests]
    by_cases hir : id = regId
    · simpa [hir] using lookupKey_removeKey_self s.pendingRequests regId
    · simpa [lookupKey_removeKey_ne _ hir] using h
  · exact h

theorem stepState_pending_none (s : ClientState) (e : Event) {id : String}
    (hreq : e ≠ Event.req id)
    (h : lookupKey s.pendingRequests id = none) :
    lookupKey (stepState s e).pendingRequests id = none := by
  cases e with
  | req i =>
    have hii : id ≠ i := fun hc => hreq (by rw [hc])
    simpa [stepState, requestCall, lookupKey_insertKey_ne _ _ hii] using h
  | sub i cb => simpa [stepState, subscribeCall] using h
  | unsub i => simpa [stepState, unsubscribeCall_fst] using h
  | frame m =>
    simp only [stepState]
    unfold handleMessage
    by_cases hid : m.id = ""
    · simpa [hid] using h
    · simp only [hid, if_false]
      cases hp : lookupKey s.pendingRequests m.id with
      | some hdl =>
        cases hdl with
        | requestHandler =>
          have hir : id ≠ m.id := by
            intro hc
            rw [hc, hp] at h
            cases h
          simp [applyHandler, settlePromise_pendingRequests,
            lookupKey_removeKey_ne _ hir, h]
        | registrationHandler =>
          simpa [applyHandler] using registrationStep_pending_none m.id m h
      | none =>
        cases hs : lookupKey s.subscriptions m.id <;> simpa [hp, hs] using h
  | reqTimeout i =>
    simp only [stepState, requestTimeoutFire]
    split
    · rename_i hsome
      have hir : id ≠ i := by
        intro hc
        rw [hc] at h
        rw [h] at hsome
        simp at hsome
      simp [settlePromise_pendingRequests, lookupKey_removeKey_ne _ hir, h]
    · exact h

theorem runState_pending_none (s : ClientState) (es : List Event) {id : String}
    (hreq : Event.req id ∉ es)
    (h : lookupKey s.pendingRequests id = none) :
    lookupKey (runState s es).pendingRequests id = none := by
  induction es generalizing s with
  | nil => exact h
  | cons e es ih =>
    have h1 : e ≠ Event.req id := fun hc => hreq (by simp [hc])
    have h2 : Event.req id ∉ es := fun hc => hreq (List.mem_cons_of_mem _ hc)
    exact ih _ h2 (stepState_pending_none s e h1 h)

theorem stepState_untouched (s : ClientState) (e : Event) {id : String}
    (hsettle : settlingEvent id e = false) (hreq : e ≠ Event.req id) :
    lookupKey (stepState s e).pendingRequests id = lookupKey s.pendingRequests id ∧
    lookupKey (stepState s e).promises id = lookupKey s.promises id := by
  cases e with
  | req i =>
    have hii : id ≠ i := fun hc => hreq (by rw [hc])
    simp [stepState, requestCall, lookupKey_insertKey_ne _ _ hii]
  | sub i cb => simp [stepState, subscribeCall]
  | unsub i => simp [stepState, unsubscribeCall_fst]
  | frame m =>
    have hmi : m.id ≠ id := by simpa [settlingEvent] using hsettle
    have hmi' : id ≠ m.id := fun hc => hmi hc.symm
    simp only [stepState]
    unfold handleMessage
    by_cases hid : m.id = ""
    · simp [hid]
    · simp only [hid, if_false]
      cases hp : lookupKey s.pendingRequests m.id with
      | some hdl =>
        cases hdl with
        | requestHandler =>
          simp [applyHandler, settlePromise_pendingRequests,
            settlePromise_lookup_ne _ hmi', lookupKey_removeKey_ne _ hmi']
        | registrationHandler =>
          constructor
          · simp only [applyHandler]
            unfold registrationStep
            split_ifs <;>
              simp [settlePromise_pendingRequests, lookupKey_removeKey_ne _ hmi']
          · simp only [applyHandler]
            unfold registrationStep
            split_ifs <;> simp [settlePromise_lookup_ne _ hmi']
      | none =>
        cases hs : lookupKey s.subscriptions m.id <;> simp [hp, hs]
  | reqTimeout i =>
    have hii : i ≠ id := by simpa [settlingEvent] using hsettle
    have hii' : id ≠ i := fun hc => hii hc.symm
    simp only [stepState, requestTimeoutFire]
    split
    · simp [settlePromise_pendingRequests, settlePromise_lookup_ne _ hii',
        lookupKey_removeKey_ne _ hii']
    · simp

theorem stepState_settles (s : ClientState) (e : Event) {id : String}
    (hid : id ≠ "")
    (hpend : lookupKey s.pendingRequests id = some Handler.requestHandler)
    (hnew : lookupKey s.promises id = none)
    (hsettle : settlingEvent id e = true) :
    lookupKey (stepState s e).promises id = some (settleOutcome e) ∧
    lookupKey (stepState s e).pendingRequests id = none := by
  cases e with
  | req i => simp [settlingEvent] at hsettle
  | sub i cb => simp [settlingEvent] at hsettle
  | unsub i => simp [settlingEvent] at hsettle
  | frame m =>
    have hmi : m.id = id := by simpa [settlingEvent] using hsettle
    subst hmi
    simp only [stepState]
    unfold handleMessage
    simp only [hid, if_false]
    rw [hpend]
    constructor
    · simpa [applyHandler, settleOutcome] using
        settlePromise_self_none (s := { s with
          pendingRequests := removeKey s.pendingRequests m.id }) (requestResolution m) hnew
    · simp [applyHandler, settlePromise_pendingRequests, lookupKey_removeKey_self]
  | reqTimeout i =>
    have hii : i = id := by simpa [settlingEvent] using hsettle
    subst hii
    simp only [stepState, requestTimeoutFire, hpend]
    simp only [Option.isSome_some, if_true]
    constructor
    · simpa [settleOutcome] using
        settlePromise_self_none (s := { s with
          pendingRequests := removeKey s.pendingRequests i }) Outcome.requestTimeout hnew
    · simp [settlePromise_pendingRequests, lookupKey_removeKey_self]

theorem registrationStep_subscriptions (regId : String) (m : TVMessage)
    (s : ClientState) :
    (registrationStep regId m s).subscriptions = s.subscriptions := by
  unfold registrationStep
  split_ifs <;> simp [settlePromise_subscriptions]

theorem handleMessage_subscriptions (parsed : Option TVMessage) (s : ClientState) :
    (handleMessage parsed s).1.subscriptions = s.subscriptions := by
  cases parsed with
  | none => rfl
  | some m =>
    unfold handleMessage
    by_cases hid : m.id = ""
    · simp [hid]
    · simp only [hid, if_false]
      cases hp : lookupKey s.pendingRequests m.id with
      | some hdl =>
        cases hdl with
        | requestHandler => simp [applyHandler, settlePromise_subscriptions]
        | registrationHandler => simp [applyHandler, registrationStep_subscriptions]
      | none => cases hs : lookupKey s.subscriptions m.id <;> simp [hp, hs]

theorem handleMessage_toSub_inv (m : TVMessage) (s : ClientState) (i : String)
    (h : (handleMessage (some m) s).2 = Dispatch.toSub i) :
    i = m.id ∧ (lookupKey s.subscriptions m.id).isSome := by
  unfold handleMessage at h
  by_cases hid : m.id = ""
  · simp [hid] at h
  · simp only [hid, if_false] at h
    cases hp : lookupKey s.pendingRequests m.id with
    | some hdl => rw [hp] at h; cases h
    | none =>
      rw [hp] at h
      cases hs : lookupKey s.subscriptions m.id with
      | some cb => rw [hs] at h; cases h; exact ⟨rfl, by simp [hs]⟩
      | none => rw [hs] at h; cases h

theorem stepLog_no_sub (s : ClientState) (e : Event) {id : String}
    (h : lookupKey s.subscriptions id = none) :
    ∀ p ∈ stepLog s e, p.1 ≠ id := by
  cases e with
  | req i => intro p hp; cases hp
  | sub i cb => intro p hp; cases hp
  | unsub i => intro p hp; cases hp
  | reqTimeout i => intro p hp; cases hp
  | frame m =>
    intro p hp
    simp only [stepLog] at hp
    cases hd : (handleMessage (some m) s).2 with
    | toSub i =>
      rw [hd] at hp
      obtain ⟨hi, hsome⟩ := handleMessage_toSub_inv m s i hd
      simp at hp
      intro hc
      rw [hp] at hc
      simp at hc
      rw [hi] at hc
      rw [hc] at hsome
      rw [h] at hsome
      cases hsome
    | toPending i => rw [hd] at hp; cases hp
    | dropped => rw [hd] at hp; cases hp
    | parseFailed => rw [hd] at hp; cases hp

theorem stepState_subs_none (s : ClientState) (e : Event) {id : String}
    (hsub : ∀ c, e ≠ Event.sub id c)
    (h : lookupKey s.subscriptions id = none) :
    lookupKey (stepState s e).subscriptions id = none := by
  cases e with
  | req i => simpa [stepState, requestCall] using h
  | sub i cb =>
    have hii : id ≠ i := by
      intro hc
      exact hsub cb (by rw [hc])
    simpa [stepState, subscribeCall, lookupKey_insertKey_ne _ _ hii] using h
  | unsub i =>
    by_cases hii : id = i
    · simp [stepState, unsubscribeCall_fst, hii, lookupKey_removeKey_self]
    · simpa [stepState, unsubscribeCall_fst, lookupKey_removeKey_ne _ hii] using h
  | frame m => simpa [stepState, handleMessage_subscriptions] using h
  | reqTimeout i =>
    simp only [stepState, requestTimeoutFire]
    split
    · simpa [settlePromise_subscriptions] using h
    · exact h

/-- Claim C1: on a connected session, the promise of every Request is
settled at most once, and exactly by the first event that matches its own
correlation id: an inbound frame carrying the request id settles it with
the resolution rules of requestResolution (error frame rejects
RequestFailed, returnValue false rejects CommandFailed, otherwise resolve
with the payload), the 10 second timeout rejects it with the timeout error
and removes the in-flight entry, and no frame carrying a different id
settles it.  The final promise value equals the settle outcome of the
first settling event of the trace, and the in-flight entry is present at
the end exactly when no settling event occurred. -/
theorem C1_request_settled_once_by_own_frame (id : String) (hid : id ≠ "") :
    requestTimeoutMs = 10000 ∧
    ∀ (es : List Event) (s : ClientState),
      lookupKey s.pendingRequests id = some Handler.requestHandler →
      lookupKey s.promises id = none →
      Event.req id ∉ es →
      lookupKey (runState s es).promises id =
        (es.find? (settlingEvent id)).map settleOutcome ∧
      lookupKey (runState s es).pendingRequests id =
        (if (es.find? (settlingEvent id)).isSome then none
         else some Handler.requestHandler) := by
  refine ⟨rfl, ?_⟩
  intro es
  induction es with
  | nil =>
    intro s hpend hnew _
    simpa [runState, List.find?] using ⟨hnew, hpend⟩
  | cons e es ih =>
    intro s hpend hnew hfresh
    have hreq : e ≠ Event.req id := fun hc => hfresh (by simp [hc])
    have hfresh' : Event.req id ∉ es := fun hc => hfresh (List.mem_cons_of_mem _ hc)
    by_cases hs : settlingEvent id e = true
    · obtain ⟨h1, h2⟩ := stepState_settles s e hid hpend hnew hs
      have hp := runState_promises_mono (stepState s e) es h1
      have hq := runState_pending_none (stepState s e) es hfresh' h2
      rw [List.find?_cons_of_pos _ hs]
      simpa [runState] using ⟨hp, hq⟩
    · have hs' : settlingEvent id e = false := by
        simpa using hs
      obtain ⟨h1, h2⟩ := stepState_untouched s e hs' hreq
      rw [List.find?_cons_of_neg _ (by simp [hs'])]
      have := ih (stepState s e) (h1.trans hpend) (h2.trans hnew) hfresh'
      simpa [runState] using this

theorem C1_witness :
    lookupKey (runState wClient [Event.frame wFrame]).promises "req-a" =
      ([Event.frame wFrame].find? (settlingEvent "req-a")).map settleOutcome ∧
    lookupKey (runState wClient [Event.frame wFrame]).pendingRequests "req-a" =
      (if ([Event.frame wFrame].find? (settlingEvent "req-a")).isSome then none
       else some Handler.requestHandler) :=
  (C1_request_settled_once_by_own_frame "req-a" (by decide)).2
    [Event.frame wFrame] wClient (by decide) (by decide) (by decide)

/-- Claim C2: the single inbound message handler checks the
pendingRequests map first and stops there when the frame id matches a
pending entry, so no subscription callback runs for that frame even when
the id is also in the subscriptions map; otherwise a matching subscription
callback is invoked with the frame payload; otherwise the frame is logged
and dropped.  The two hypotheses state the reachable-state invariant that
the empty string, which JavaScript treats as a falsy id, is never a key of
either map (all keys are freshly generated UUIDs). -/
theorem C2_dispatch_priority (s : ClientState) (m : TVMessage)
    (hp0 : lookupKey s.pendingRequests "" = none)
    (hs0 : lookupKey s.subscriptions "" = none) :
    (∀ h, lookupKey s.pendingRequests m.id = some h →
      handleMessage (some m) s = (applyHandler h m.id m s, Dispatch.toPending m.id) ∧
      stepLog s (Event.frame m) = []) ∧
    (∀ cb, lookupKey s.pendingRequests m.id = none →
      lookupKey s.subscriptions m.id = some cb →
      handleMessage (some m) s = (s, Dispatch.toSub m.id) ∧
      stepLog s (Event.frame m) = [(m.id, m.payload)]) ∧
    (lookupKey s.pendingRequests m.id = none →
      lookupKey s.subscriptions m.id = none →
      handleMessage (some m) s = (s, Dispatch.dropped)) := by
  by_cases hid : m.id = ""
  · refine ⟨?_, ?_, ?_⟩
    · intro h hh
      rw [hid, hp0] at hh
      cases hh
    · intro cb hh hcb
      rw [hid, hs0] at hcb
      cases hcb
    · intro _ _
      simp [handleMessage, hid]
  · refine ⟨?_, ?_, ?_⟩
    · intro h hh
      constructor
      · simp [handleMessage, hid, hh]
      · simp [stepLog, handleMessage, hid, hh]
    · intro cb hh hcb
      constructor
      · simp [handleMessage, hid, hh, hcb]
      · simp [stepLog, handleMessage, hid, hh, hcb]
    · intro hh hcb
      simp [handleMessage, hid, hh, hcb]

theorem C2_witness :
    handleMessage (some wBothFrame) wBothClient =
      (applyHandler Handler.requestHandler "both-1" wBothFrame wBothClient,
       Dispatch.toPending "both-1") ∧
    stepLog wBothClient (Event.frame wBothFrame) = [] :=
  (C2_dispatch_priority wBothClient wBothFrame (by decide) (by decide)).1
    Handler.requestHandler (by decide)

/-- Claim C10: the inbound message handler is total and non-mutating on
unrecognized input.  Input that is not valid JSON (the none case of the
modelled decode) is logged and dropped by the catch block, and a parsed
frame whose id matches neither map is logged and dropped; in both cases
the returned state is the input state, so the pendingRequests map, the
subscriptions map and the stored client key are untouched, and no
exception escapes (the model returns a value in every case). -/
theorem C10_unrecognized_input_no_mutation (s : ClientState) (m : TVMessage)
    (h1 : lookupKey s.pendingRequests m.id = none)
    (h2 : lookupKey s.subscriptions m.id = none) :
    handleMessage none s = (s, Dispatch.parseFailed) ∧
    handleMessage (some m) s = (s, Dispatch.dropped) := by
  refine ⟨rfl, ?_⟩
  unfold handleMessage
  by_cases hid : m.id = ""
  · simp [hid]
  · simp [hid, h1, h2]

theorem C10_witness :
    handleMessage none wClient = (wClient, Dispatch.parseFailed) ∧
    handleMessage (some wUnknownFrame) wClient = (wClient, Dispatch.dropped) :=
  C10_unrecognized_input_no_mutation wClient wUnknownFrame (by decide) (by decide)

/-- Claim C6 counterexample: disconnect does not fail outstanding
in-flight requests and does not remove subscription handles.  After
disconnect on a state with an in-flight request req-1 and a subscription
sub-1, the in-flight entry is still present, its promise is still
unsettled (no Cancelled rejection happened at disconnect time), and the
subscription handle is still registered. -/
theorem C6_counterexample :
    (disconnect c6State).pendingRequests = [("req-1", Handler.requestHandler)] ∧
    lookupKey (disconnect c6State).promises "req-1" = none ∧
    (disconnect c6State).subscriptions = [("sub-1", 0)] := by
  decide

/-- Claim C6 amended: disconnect closes and nulls the pointer socket and
the primary socket but leaves the pendingRequests map, the subscriptions
map and all promises untouched; an outstanding request is therefore not
cancelled at disconnect time and is instead rejected later with the
timeout error when its own 10 second timer fires. -/
theorem C6_disconnect_amended (s : ClientState) :
    (disconnect s).ws = none ∧
    (disconnect s).pointerSocket = none ∧
    (disconnect s).pointerSocketPath = none ∧
    (disconnect s).pendingRequests = s.pendingRequests ∧
    (disconnect s).subscriptions = s.subscriptions ∧
    (disconnect s).promises = s.promises ∧
    (∀ id, lookupKey s.pendingRequests id = some Handler.requestHandler →
      lookupKey s.promises id = none →
      lookupKey (requestTimeoutFire id (disconnect s)).promises id =
        some Outcome.requestTimeout) := by
  refine ⟨rfl, rfl, rfl, rfl, rfl, rfl, ?_⟩
  intro id hpend hnew
  have hpend' : lookupKey (disconnect s).pendingRequests id =
      some Handler.requestHandler := hpend
  unfold requestTimeoutFire
  rw [hpend']
  simp only [Option.isSome_some, if_true]
  exact settlePromise_self_none Outcome.requestTimeout hnew

theorem C6_witness :
    lookupKey (requestTimeoutFire "req-1" (disconnect c6State)).promises "req-1" =
      some Outcome.requestTimeout :=
  (C6_disconnect_amended c6State).2.2.2.2.2.2 "req-1" (by decide) (by decide)

/-- Claim C7 counterexample: a failure to deliver the unsubscribe frame
does surface an error to the Unsubscribe caller.  With the socket gone,
unsubscribe deletes the handle and then calls send, which throws the Not
connected error; that exception propagates out of unsubscribe to its
caller, contradicting the claim that delivery failure is silent. -/
theorem C7_counterexample :
    (unsubscribeCall "sub-1" c7State).2 = some "Not connected" ∧
    (unsubscribeCall "sub-1" c7State).1.subscriptions = [] := by
  decide

/-- Claim C7 amended: a subscription callback is invoked exactly once per
inbound frame whose id matches the handle, and the handle survives the
frame, so this continues indefinitely; once the handle is absent from the
subscriptions map and no new subscription reuses the id, no further
callback invocation for that id occurs no matter which frames keep
arriving; unsubscribe always removes the handle first and then attempts to
send the unsubscribe frame, and when the socket is absent or not open that
send throws the Not connected error, which does surface to the
Unsubscribe caller. -/
theorem C7_subscription_lifecycle_amended :
    (∀ (s : ClientState) (m : TVMessage) (cb : Nat),
      m.id ≠ "" →
      lookupKey s.pendingRequests m.id = none →
      lookupKey s.subscriptions m.id = some cb →
      stepLog s (Event.frame m) = [(m.id, m.payload)] ∧
      lookupKey (stepState s (Event.frame m)).subscriptions m.id = some cb) ∧
    (∀ (s : ClientState) (id : String) (es : List Event),
      lookupKey s.subscriptions id = none →
      (∀ c, Event.sub id c ∉ es) →
      ∀ p ∈ runLog s es, p.1 ≠ id) ∧
    (∀ (s : ClientState) (id : String),
      lookupKey (unsubscribeCall id s).1.subscriptions id = none ∧
      (unsubscribeCall id s).2 =
        (if s.ws = some true then none else some "Not connected")) := by
  refine ⟨?_, ?_, ?_⟩
  · intro s m cb hid hpend hsub
    constructor
    · simp [stepLog, handleMessage, hid, hpend, hsub]
    · simpa [stepState, handleMessage_subscriptions] using hsub
  · intro s id es
    induction es generalizing s with
    | nil =>
      intro _ _ p hp
      cases hp
    | cons e es ih =>
      intro hnone hfreshsub p hp
      simp only [runLog] at hp
      rcases List.mem_append.mp hp with hp1 | hp2
      · exact stepLog_no_sub s e hnone p hp1
      · have hsub : ∀ c, e ≠ Event.sub id c := by
          intro c hc
          exact hfreshsub c (by simp [hc])
        have hfresh' : ∀ c, Event.sub id c ∉ es := by
          intro c hc
          exact hfreshsub c (List.mem_cons_of_mem _ hc)
        exact ih (stepState s e) (stepState_subs_none s e hsub hnone) hfresh' p hp2
  · intro s id
    constructor
    · rw [unsubscribeCall_fst]
      exact lookupKey_removeKey_self _ _
    · unfold unsubscribeCall
      cases hw : s.ws with
      | none => simp [hw]
      | some b => cases b <;> simp [hw]

theorem C7_witness :
    stepLog wSubClient (Event.frame wSubFrame) = [("sub-9", wSubFrame.payload)] ∧
    lookupKey (stepState wSubClient (Event.frame wSubFrame)).subscriptions "sub-9" =
      some 3 :=
  C7_subscription_lifecycle_amended.1 wSubClient wSubFrame 3
    (by decide) (by decide) (by decide)

theorem settlePromise_pendingRegistrationId (i : String) (o : Outcome)
    (s : ClientState) :
    (settlePromise i o s).pendingRegistrationId = s.pendingRegistrationId := by
  unfold settlePromise
  split <;> rfl

/-- Claim C8 counterexample: a PIN-pairing flow that entered AwaitingPIN
while the client holds a stored client key.  When the 60 second
registration timer fires, its guard also requires a falsy client key, so
it clears nothing and produces no error: the pending registration state
survives the window intact, contradicting the claim that the attempt
fails with a pairing-timeout error and the state is cleared. -/
theorem C8_counterexample :
    c8AwaitPIN.pendingRegistrationId = some "reg-1" ∧
    lookupKey c8AwaitPIN.promises "reg-1" = some Outcome.initiatedPIN ∧
    registrationTimeoutFire "reg-1" c8AwaitPIN = c8AwaitPIN := by
  decide

/-- Claim C8 amended: the PIN submission window is the 60000 ms
registration timeout.  When the timer fires with the registration entry
still pending, it clears the pending registration state (entry and
pendingRegistrationId) only when the client holds no truthy client key,
and its rejection cannot re-settle the initiation promise, which already
resolved when the PIN was displayed, so no pairing-timeout error reaches
the initiating caller; a later completePairing call on the cleared state
fails with the no-pending-registration error.  With a client key held,
the timer leaves the registration state intact. -/
theorem C8_registration_timeout_amended :
    registrationTimeoutMs = 60000 ∧
    (∀ (s : ClientState) (regId : String),
      (lookupKey s.pendingRequests regId).isSome →
      jsTruthy s.clientKey = false →
      (registrationTimeoutFire regId s).pendingRegistrationId = none ∧
      lookupKey (registrationTimeoutFire regId s).pendingRequests regId = none ∧
      (∀ o, lookupKey s.promises regId = some o →
        lookupKey (registrationTimeoutFire regId s).promises regId = some o)) ∧
    (∀ (s : ClientState) (regId : String),
      jsTruthy s.clientKey = true →
      registrationTimeoutFire regId s = s) ∧
    (∀ s : ClientState,
      s.ws ≠ none →
      s.pendingRegistrationId = none →
      completePairingCheck s =
        Except.error "No pending registration. Call initiateRegistration() first.") := by
  refine ⟨rfl, ?_, ?_, ?_⟩
  · intro s regId hsome hkey
    unfold registrationTimeoutFire
    rw [if_pos ⟨hsome, hkey⟩]
    refine ⟨?_, ?_, ?_⟩
    · rw [settlePromise_pendingRegistrationId]
    · rw [settlePromise_pendingRequests]
      exact lookupKey_removeKey_self _ _
    · intro o ho
      exact settlePromise_mono _ _ ho
  · intro s regId hkey
    unfold registrationTimeoutFire
    rw [if_neg]
    intro hc
    rw [hkey] at hc
    cases hc.2
  · intro s hw hreg
    unfold completePairingCheck
    rw [if_neg hw, if_pos]
    rw [hreg]
    rfl

theorem C8_witness :
    (registrationTimeoutFire "reg-1" c8NoKey).pendingRegistrationId = none ∧
    lookupKey (registrationTimeoutFire "reg-1" c8NoKey).pendingRequests "reg-1" = none ∧
    (∀ o, lookupKey c8NoKey.promises "reg-1" = some o →
      lookupKey (registrationTimeoutFire "reg-1" c8NoKey).promises "reg-1" = some o) :=
  C8_registration_timeout_amended.2.1 c8NoKey "reg-1" (by decide) (by decide)

theorem getCredentialsRow_mem {db : List TVCredential} {ip : String}
    {c : TVCredential} (h : getCredentialsRow db ip = some c) : c ∈ db := by
  induction db with
  | nil => cases h
  | cons d rest ih =>
    unfold getCredentialsRow at h
    by_cases hd : d.ip = ip
    · rw [if_pos hd] at h
      cases h
      exact List.mem_cons_self _ _
    · rw [if_neg hd] at h
      exact List.mem_cons_of_mem _ (ih h)

theorem getCredentialsRow_mapUpdate (db : List TVCredential) (ip : String)
    (f : TVCredential → TVCredential) (hf : ∀ c, (f c).ip = c.ip) :
    getCredentialsRow (db.map (fun c => if c.ip = ip then f c else c)) ip =
      (getCredentialsRow db ip).map f := by
  induction db with
  | nil => rfl
  | cons d rest ih =>
    by_cases hd : d.ip = ip
    · simp [getCredentialsRow, hd, hf d]
    · simp [getCredentialsRow, hd, ih]

theorem updateLastUsed_mem {db : List TVCredential} {ip : String} {now : Nat}
    {d : TVCredential} (h : d ∈ updateLastUsed db ip now) :
    (d.ip = ip ∧ d.lastUsed = now) ∨ (d ∈ db ∧ d.ip ≠ ip) := by
  unfold updateLastUsed at h
  obtain ⟨a, ha, hd⟩ := List.mem_map.mp h
  by_cases hip : a.ip = ip
  · left
    rw [if_pos hip] at hd
    rw [← hd]
    exact ⟨hip, rfl⟩
  · right
    rw [if_neg hip] at hd
    rw [← hd]
    exact ⟨ha, hip⟩

theorem foldl_pick_eq_none {l : List TVCredential} {acc : Option TVCredential}
    (h : l.foldl pickMoreRecent acc = none) : acc = none ∧ l = [] := by
  induction l generalizing acc with
  | nil => exact ⟨h, rfl⟩
  | cons c rest ih =>
    simp only [List.foldl_cons] at h
    obtain ⟨h1, _⟩ := ih h
    cases acc with
    | none => simp [pickMoreRecent] at h1
    | some b =>
      by_cases hlt : b.lastUsed < c.lastUsed <;>
        simp [pickMoreRecent, hlt] at h1

theorem foldl_pick_mem (l : List TVCredential) (acc : Option TVCredential)
    (r : TVCredential) (h : l.foldl pickMoreRecent acc = some r) :
    acc = some r ∨ r ∈ l := by
  induction l generalizing acc with
  | nil => exact Or.inl h
  | cons c rest ih =>
    simp only [List.foldl_cons] at h
    rcases ih (pickMoreRecent acc c) h with h1 | h2
    · cases acc with
      | none =>
        simp only [pickMoreRecent] at h1
        cases h1
        exact Or.inr (List.mem_cons_self _ _)
      | some b =>
        simp only [pickMoreRecent] at h1
        by_cases hlt : b.lastUsed < c.lastUsed
        · rw [if_pos hlt] at h1
          cases h1
          exact Or.inr (List.mem_cons_self _ _)
        · rw [if_neg hlt] at h1
          exact Or.inl h1
    · exact Or.inr (List.mem_cons_of_mem _ h2)

theorem foldl_pick_ge (l : List TVCredential) (acc : Option TVCredential)
    (r : TVCredential) (h : l.foldl pickMoreRecent acc = some r) :
    (∀ b, acc = some b → b.lastUsed ≤ r.lastUsed) ∧
    (∀ x ∈ l, x.lastUsed ≤ r.lastUsed) := by
  induction l generalizing acc with
  | nil =>
    refine ⟨?_, ?_⟩
    · intro b hb
      rw [hb] at h
      cases h
      exact le_refl _
    · intro x hx
      cases hx
  | cons c rest ih =>
    simp only [List.foldl_cons] at h
    obtain ⟨iha, ihl⟩ := ih (pickMoreRecent acc c) h
    have hc : c.lastUsed ≤ r.lastUsed := by
      cases hacc : acc with
      | none => exact iha c (by simp [pickMoreRecent, hacc])
      | some b =>
        by_cases hlt : b.lastUsed < c.lastUsed
        · exact iha c (by simp [pickMoreRecent, hacc, hlt])
        · have hb := iha b (by simp [pickMoreRecent, hacc, hlt])
          exact le_trans (le_of_not_lt hlt) hb
    refine ⟨?_, ?_⟩
    · intro b hb
      cases hb
      by_cases hlt : b.lastUsed < c.lastUsed
      · exact le_trans (le_of_lt hlt) hc
      · exact iha b (by simp [pickMoreRecent, hlt])
    · intro x hx
      rcases List.mem_cons.mp hx with h1 | h2
      · rw [h1]
        exact hc
      · exact ihl x h2

/-- Claim C9: getCredentials is not a pure read.  When a row exists for
the address, the lookup returns the row as previously stored (with the
pre-update last_used value) and, as a side effect, sets that row
last_used column to the current time, leaving other rows untouched; as a
consequence, when the row is valid and the current time is strictly later
than every stored timestamp, getMostRecentTV on the store after the mere
get returns that address. -/
theorem C9_get_updates_last_used (db : List TVCredential) (ip : String)
    (now : Nat) (c : TVCredential)
    (hrow : getCredentialsRow db ip = some c) :
    (getCredentials db ip now).1 = some c ∧
    getCredentialsRow (getCredentials db ip now).2 ip =
      some { c with lastUsed := now } ∧
    (∀ d ∈ (getCredentials db ip now).2, d.ip ≠ ip → d ∈ db) ∧
    (c.isValid = true → (∀ d ∈ db, d.lastUsed < now) →
      ∃ r, getMostRecentTV (getCredentials db ip now).2 = some r ∧
        r.ip = ip ∧ r.lastUsed = now) := by
  have hdb2 : (getCredentials db ip now).2 = updateLastUsed db ip now := by
    unfold getCredentials
    rw [hrow]
  have hrow2 : getCredentialsRow (updateLastUsed db ip now) ip =
      some { c with lastUsed := now } := by
    unfold updateLastUsed
    rw [getCredentialsRow_mapUpdate db ip
      (fun x => { x with lastUsed := now }) (fun _ => rfl), hrow]
    rfl
  refine ⟨?_, ?_, ?_, ?_⟩
  · unfold getCredentials
    rw [hrow]
  · rw [hdb2]
    exact hrow2
  · intro d hd hdip
    rw [hdb2] at hd
    rcases updateLastUsed_mem hd with ⟨h1, _⟩ | ⟨h2, _⟩
    · exact absurd h1 hdip
    · exact h2
  · intro hvalid hfresh
    rw [hdb2]
    have hcmem : { c with lastUsed := now } ∈ updateLastUsed db ip now :=
      getCredentialsRow_mem hrow2
    have hcfil : { c with lastUsed := now } ∈
        (updateLastUsed db ip now).filter (fun x => x.isValid) := by
      apply List.mem_filter.mpr
      exact ⟨hcmem, by simpa using hvalid⟩
    cases hres : getMostRecentTV (updateLastUsed db ip now) with
    | none =>
      exfalso
      unfold getMostRecentTV at hres
      obtain ⟨_, hemp⟩ := foldl_pick_eq_none hres
      rw [hemp] at hcfil
      cases hcfil
    | some r =>
      unfold getMostRecentTV at hres
      have hge := (foldl_pick_ge _ _ _ hres).2 _ hcfil
      have hrmem : r ∈ updateLastUsed db ip now := by
        rcases foldl_pick_mem _ _ _ hres with h1 | h2
        · cases h1
        · exact (List.mem_filter.mp h2).1
      rcases updateLastUsed_mem hrmem with ⟨hip2, hlu⟩ | ⟨hmem, _⟩
      · exact ⟨r, rfl, hip2, hlu⟩
      · exfalso
        have := hfresh r hmem
        simp only at hge
        omega

theorem C9_witness :
    (getCredentials [wCred] "10.0.0.5" 9).1 = some wCred ∧
    getCredentialsRow (getCredentials [wCred] "10.0.0.5" 9).2 "10.0.0.5" =
      some { wCred with lastUsed := 9 } ∧
    (∀ d ∈ (getCredentials [wCred] "10.0.0.5" 9).2, d.ip ≠ "10.0.0.5" →
      d ∈ [wCred]) ∧
    (wCred.isValid = true → (∀ d ∈ [wCred], d.lastUsed < 9) →
      ∃ r, getMostRecentTV (getCredentials [wCred] "10.0.0.5" 9).2 = some r ∧
        r.ip = "10.0.0.5" ∧ r.lastUsed = 9) :=
  C9_get_updates_last_used [wCred] "10.0.0.5" 9 wCred (by decide)

/-- Claim C3 is right and the code is wrong (code bug).  The comment above
the check in autoReconnect states the intent: if authentication failed,
invalidate credentials.  But the check is a case-sensitive substring test
for 401 or lowercase authentication, and the very message produced by
registerWithStoredKey when the device rejects the stored key with an error
frame carrying no error text is Authentication failed, with a capital A,
which the test misses.  Evaluated at that failing input: the silent
reconnect fails, yet the stored record keeps isValid true and no
invalidate call happens (only the last_used side effect of getCredentials
is visible); ensureConnection with no live session routes through
getMostRecentTV to this record.  When the store is empty, ensureConnection
fails with no store mutation, which the code does honour. -/
theorem C3_stale_key_not_invalidated :
    reconnectErrMessage "10.0.0.5" true (ReconnectError.authErrorFrame none) =
      "Authentication failed" ∧
    isAuthFailureMessage "Authentication failed" = false ∧
    (autoReconnect [c3Cred] "10.0.0.5" 7
      (AttemptOutcome.fails (ReconnectError.authErrorFrame none))).1 = false ∧
    getCredentialsRow (autoReconnect [c3Cred] "10.0.0.5" 7
      (AttemptOutcome.fails (ReconnectError.authErrorFrame none))).2 "10.0.0.5" =
      some { c3Cred with lastUsed := 7 } ∧
    isAuthFailureMessage
      (reconnectErrMessage "10.0.0.5" true ReconnectError.connectTimeout) = false ∧
    ensureConnection false [] 7
      (AttemptOutcome.fails (ReconnectError.authErrorFrame none)) = (false, []) := by
  decide

theorem getCredentialsRow_append_of_none {db : List TVCredential}
    {ip : String} (h : getCredentialsRow db ip = none)
    (l : List TVCredential) :
    getCredentialsRow (db ++ l) ip = getCredentialsRow l ip := by
  induction db with
  | nil => rfl
  | cons d rest ih =>
    rw [List.cons_append]
    simp only [getCredentialsRow] at h ⊢
    by_cases hd : d.ip = ip
    · rw [if_pos hd] at h
      cases h
    · rw [if_neg hd] at h ⊢
      exact ih h

theorem saveCredentials_row (db : List TVCredential) (ip ck : String)
    (secure : Bool) (name : Option String) (now : Nat) :
    ∃ r, getCredentialsRow (saveCredentials db ip ck secure name now) ip = some r ∧
      r.clientKey = ck ∧ r.secure = secure ∧ r.isValid = true ∧ r.lastUsed = now := by
  unfold saveCredentials
  cases hrow : getCredentialsRow db ip with
  | none =>
    refine ⟨{ ip := ip, clientKey := ck, secure := secure, name := name,
              createdAt := now, lastUsed := now, isValid := true },
      ?_, rfl, rfl, rfl, rfl⟩
    dsimp only
    rw [getCredentialsRow_append_of_none hrow]
    simp [getCredentialsRow]
  | some c =>
    refine ⟨{ c with
        clientKey := ck,
        secure := secure,
        lastUsed := now,
        isValid := true,
        name := (match name with | some n => some n | none => c.name) },
      ?_, rfl, rfl, rfl, rfl⟩
    dsimp only
    rw [getCredentialsRow_mapUpdate db ip
      (fun x => { x with clientKey := ck, secure := secure, lastUsed := now,
                         isValid := true,
                         name := match name with | some n => some n | none => x.name })
      (fun _ => rfl), hrow]
    rfl

/-- Claim C5: the pair handler with a pending target address resolved.
With no PendingPairing entry for the address, it fails with the
no-pending-pairing response and the entire server state, store included,
is unchanged.  With a pending entry and an accepted PIN, the new state is
exactly one saveCredentials upsert of the key and the pending transport
mode (the stored row then carries that key, that mode, validity and the
fresh timestamp), the paired session is installed as current, and the
pending entry is removed.  With a rejected PIN the handler returns the
error and the state, store included, is unchanged. -/
theorem C5_complete_pairing (pin : String) (ipArg : Option String)
    (now : Nat) (st : ServerState) (tip : String)
    (hpin : pin ≠ "")
    (htip : jsOrOpt ipArg st.currentTVIP = some tip)
    (htip2 : tip ≠ "") :
    (∀ pr, lookupKey st.pendingPairings tip = none →
      pairHandler pin ipArg pr now st = (st, PairResp.noPending tip)) ∧
    (∀ sec key, lookupKey st.pendingPairings tip = some sec →
      pairHandler pin ipArg (PinResult.accepted key) now st =
        ({ st with db := saveCredentials st.db tip key sec none now,
                   hasClient := true, hasCommands := true,
                   currentTVIP := some tip,
                   pendingPairings := removeKey st.pendingPairings tip },
         PairResp.paired tip key) ∧
      lookupKey (pairHandler pin ipArg (PinResult.accepted key) now st).1.pendingPairings
        tip = none ∧
      (∃ r, getCredentialsRow
          (pairHandler pin ipArg (PinResult.accepted key) now st).1.db tip = some r ∧
        r.clientKey = key ∧ r.secure = sec ∧ r.isValid = true ∧ r.lastUsed = now)) ∧
    (∀ sec msg, lookupKey st.pendingPairings tip = some sec →
      pairHandler pin ipArg (PinResult.rejected msg) now st =
        (st, PairResp.serverError msg)) := by
  refine ⟨?_, ?_, ?_⟩
  · intro pr hnone
    unfold pairHandler
    rw [if_neg hpin, htip]
    dsimp only
    rw [if_neg htip2, hnone]
  · intro sec key hsome
    have hmain : pairHandler pin ipArg (PinResult.accepted key) now st =
        ({ st with db := saveCredentials st.db tip key sec none now,
                   hasClient := true, hasCommands := true,
                   currentTVIP := some tip,
                   pendingPairings := removeKey st.pendingPairings tip },
         PairResp.paired tip key) := by
      unfold pairHandler
      rw [if_neg hpin, htip]
      dsimp only
      rw [if_neg htip2, hsome]
    refine ⟨hmain, ?_, ?_⟩
    · rw [hmain]
      exact lookupKey_removeKey_self _ _
    · rw [hmain]
      exact saveCredentials_row st.db tip key sec none now
  · intro sec msg hsome
    unfold pairHandler
    rw [if_neg hpin, htip]
    dsimp only
    rw [if_neg htip2, hsome]

theorem C5_witness :
    (∀ pr, lookupKey wServer.pendingPairings "10.0.0.5" = none →
      pairHandler "482913" none pr 3 wServer =
        (wServer, PairResp.noPending "10.0.0.5")) ∧
    (∀ sec key, lookupKey wServer.pendingPairings "10.0.0.5" = some sec →
      pairHandler "482913" none (PinResult.accepted key) 3 wServer =
        ({ wServer with db := saveCredentials wServer.db "10.0.0.5" key sec none 3,
                        hasClient := true, hasCommands := true,
                        currentTVIP := some "10.0.0.5",
                        pendingPairings := removeKey wServer.pendingPairings "10.0.0.5" },
         PairResp.paired "10.0.0.5" key) ∧
      lookupKey (pairHandler "482913" none (PinResult.accepted key) 3
        wServer).1.pendingPairings "10.0.0.5" = none ∧
      (∃ r, getCredentialsRow (pairHandler "482913" none (PinResult.accepted key) 3
          wServer).1.db "10.0.0.5" = some r ∧
        r.clientKey = key ∧ r.secure = sec ∧ r.isValid = true ∧ r.lastUsed = 3)) ∧
    (∀ sec msg, lookupKey wServer.pendingPairings "10.0.0.5" = some sec →
      pairHandler "482913" none (PinResult.rejected msg) 3 wServer =
        (wServer, PairResp.serverError msg)) :=
  C5_complete_pairing "482913" none 3 wServer "10.0.0.5"
    (by decide) (by decide) (by decide)

theorem connectHandler_attempts (ip : String) (secure : Option Bool)
    (force : Bool) (ok : Bool → Bool) (connErr : Bool → String)
    (reg : RegOutcome) (now : Nat) (st : ServerState)
    (hip : ¬ ip = "")
    (hshort : ¬(st.hasClient = true ∧ st.currentTVIP = some ip ∧ force = false)) :
    (connectHandler ip secure force ok connErr reg now st).2.2 =
      (tryConnect secure ok).2 := by
  unfold connectHandler
  rw [if_neg hip, if_neg hshort]
  dsimp only
  rcases htc : tryConnect secure ok with ⟨o, att⟩
  cases o with
  | connected m => cases reg <;> rfl
  | failedExplicit m => rfl
  | failedBoth => rfl

theorem pairHandler_accepted (pin : String) (ipArg : Option String)
    (now : Nat) (st : ServerState) (tip : String) (sec : Bool) (key : String)
    (hpin : pin ≠ "")
    (htip : jsOrOpt ipArg st.currentTVIP = some tip)
    (htip2 : tip ≠ "")
    (hsome : lookupKey st.pendingPairings tip = some sec) :
    pairHandler pin ipArg (PinResult.accepted key) now st =
      ({ st with db := saveCredentials st.db tip key sec none now,
                 hasClient := true, hasCommands := true,
                 currentTVIP := some tip,
                 pendingPairings := removeKey st.pendingPairings tip },
       PairResp.paired tip key) := by
  unfold pairHandler
  rw [if_neg hpin, htip]
  dsimp only
  rw [if_neg htip2, hsome]

/-- Claim C4: transport mode selection of the connect handler.  With an
explicitly pinned mode, exactly that one mode is attempted, and a failure
returns exactly the connect error of that mode with no fallback attempt;
with no pinned mode, secure is attempted first and insecure only after
secure fails, a connect-stage error is surfaced only when both modes
failed (carrying the last error), a successful loop ends in the first
mode that succeeded, and in the secure-fails insecure-succeeds scenario
the session records insecure in pendingPairings and the subsequent pair
handler persists a credential row with that same insecure mode. -/
theorem C4_transport_mode_fallback (ip : String) (force : Bool)
    (ok : Bool → Bool) (connErr : Bool → String) (now : Nat) (st : ServerState)
    (hip : ip ≠ "")
    (hshort : ¬(st.hasClient = true ∧ st.currentTVIP = some ip ∧ force = false)) :
    (∀ b reg, (connectHandler ip (some b) force ok connErr reg now st).2.2 = [b]) ∧
    (∀ b reg, ok b = false →
      (connectHandler ip (some b) force ok connErr reg now st).2.1 =
        ConnectResp.serverError (connErr b)) ∧
    (∀ reg, (connectHandler ip none force ok connErr reg now st).2.2 =
      (if ok true then [true] else [true, false])) ∧
    (∀ reg, ok true = false → ok false = false →
      (connectHandler ip none force ok connErr reg now st).2.1 =
        ConnectResp.serverError (bothFailMessage (connErr false))) ∧
    (∀ m, connectLoop false ok [true, false] = ConnectOutcome.connected m →
      m = (if ok true then true else false) ∧ ok m = true) ∧
    (ok true = false → ok false = true →
      (connectHandler ip none force ok connErr RegOutcome.requiresPIN now st).2.1 =
        ConnectResp.pinDisplayed ip false ∧
      lookupKey (connectHandler ip none force ok connErr
        RegOutcome.requiresPIN now st).1.pendingPairings ip = some false ∧
      (∀ pin key, pin ≠ "" →
        ∃ r, getCredentialsRow (pairHandler pin (some ip) (PinResult.accepted key)
            now (connectHandler ip none force ok connErr RegOutcome.requiresPIN
            now st).1).1.db ip = some r ∧
          r.clientKey = key ∧ r.secure = false)) := by
  refine ⟨?_, ?_, ?_, ?_, ?_, ?_⟩
  · intro b reg
    rw [connectHandler_attempts ip (some b) force ok connErr reg now st hip hshort]
    cases hok : ok b <;>
      simp [tryConnect, connectModes, connectAttempts, hok]
  · intro b reg hok
    have htc : tryConnect (some b) ok = (ConnectOutcome.failedExplicit b, [b]) := by
      simp [tryConnect, connectModes, connectLoop, connectAttempts, hok]
    unfold connectHandler
    rw [if_neg hip, if_neg hshort]
    dsimp only
    rw [htc]
  · intro reg
    rw [connectHandler_attempts ip none force ok connErr reg now st hip hshort]
    cases hok1 : ok true
    · cases hok2 : ok false <;>
        simp [tryConnect, connectModes, connectAttempts, hok1, hok2]
    · simp [tryConnect, connectModes, connectAttempts, hok1]
  · intro reg h1 h2
    have htc : tryConnect none ok = (ConnectOutcome.failedBoth, [true, false]) := by
      simp [tryConnect, connectModes, connectLoop, connectAttempts, h1, h2]
    unfold connectHandler
    rw [if_neg hip, if_neg hshort]
    dsimp only
    rw [htc]
  · intro m h
    cases hok1 : ok true
    · cases hok2 : ok false
      · rw [connectLoop, if_neg (by simp [hok1]), if_neg (by simp)] at h
        rw [connectLoop, if_neg (by simp [hok2]), if_neg (by simp)] at h
        cases h
      · rw [connectLoop, if_neg (by simp [hok1]), if_neg (by simp)] at h
        rw [connectLoop, if_pos (by simp [hok2])] at h
        cases h
        exact ⟨by simp [hok1], hok2⟩
    · rw [connectLoop, if_pos (by simp [hok1])] at h
      cases h
      exact ⟨by simp [hok1], hok1⟩
  · intro h1 h2
    have htc : tryConnect none ok =
        (ConnectOutcome.connected false, [true, false]) := by
      simp [tryConnect, connectModes, connectLoop, connectAttempts, h1, h2]
    have hch : connectHandler ip none force ok connErr RegOutcome.requiresPIN now st =
        ({ db := (getCredentials st.db ip now).2, hasClient := true,
           hasCommands := false, currentTVIP := some ip,
           pendingPairings := insertKey st.pendingPairings ip false },
         ConnectResp.pinDisplayed ip false, [true, false]) := by
      unfold connectHandler
      rw [if_neg hip, if_neg hshort]
      dsimp only
      rw [htc]
    refine ⟨by rw [hch], ?_, ?_⟩
    · rw [hch]
      exact lookupKey_insertKey_self _ _ _
    · intro pin key hpin
      rw [hch]
      rw [pairHandler_accepted pin (some ip) now _ ip false key hpin
        (by simp [jsOrOpt, jsTruthy, hip]) hip
        (lookupKey_insertKey_self _ _ _)]
      obtain ⟨r, hr, h1r, h2r, _, _⟩ :=
        saveCredentials_row (getCredentials st.db ip now).2 ip key false none now
      exact ⟨r, hr, h1r, h2r⟩

theorem C4_witness :
    (connectHandler "10.0.0.7" none false c4ok (fun _ => "boom")
      RegOutcome.requiresPIN 4 c4Server).2.1 =
      ConnectResp.pinDisplayed "10.0.0.7" false ∧
    lookupKey (connectHandler "10.0.0.7" none false c4ok (fun _ => "boom")
      RegOutcome.requiresPIN 4 c4Server).1.pendingPairings "10.0.0.7" = some false ∧
    (∀ pin key, pin ≠ "" →
      ∃ r, getCredentialsRow (pairHandler pin (some "10.0.0.7")
          (PinResult.accepted key) 4 (connectHandler "10.0.0.7" none false c4ok
          (fun _ => "boom") RegOutcome.requiresPIN 4 c4Server).1).1.db "10.0.0.7" =
        some r ∧ r.clientKey = key ∧ r.secure = false) :=
  (C4_transport_mode_fallback "10.0.0.7" false c4ok (fun _ => "boom") 4 c4Server
    (by decide) (by decide)).2.2.2.2.2 (by decide) (by decide)

end Pokemote
